import Mathlib

/-!
Shallow embedding of the screenly-ai-backend repository: a FastAPI CRUD
backend over PostgreSQL managing jobs, candidates and job questions owned
by authenticated users.  Each HTTP handler is a direct mapping from a
route to a parameterized SQL statement; we model the database as an
explicit in-memory store (lists of rows) and each handler as a function
from the store (plus the authenticated user id and request data) to a new
store and an HTTP outcome, where errors carry the HTTP status code.
-/

namespace Screenly

/-- Enumerated work-location type, from app/models/job.py (class LocationType). -/
inductive LocationType
  | on_site
  | remote
  | hybrid
deriving DecidableEq, Repr

/-- Enumerated seniority level, from app/models/job.py (class SeniorityLevel). -/
inductive SeniorityLevel
  | intern
  | junior
  | mid_level
  | senior
  | lead
  | principal
deriving DecidableEq, Repr

/-- Row of the jobs table.  Columns as used by the INSERT/SELECT statements in
app/routers/jobs.py.  Identifiers and timestamps are abstracted as naturals;
the updated_at column is nullable (not set on insert). -/
structure Job where
  id : Nat
  title : String
  description : Option String
  location : Option String
  location_type : Option LocationType
  seniority_level : Option SeniorityLevel
  created_by_user_id : String
  created_at : Nat
  updated_at : Option Nat
deriving DecidableEq, Repr

/-- Row of the candidates table, columns as used in app/routers/candidates.py.
The status column defaults to pending and score is nullable (never written by
this codebase). -/
structure Candidate where
  id : Nat
  full_name : String
  phone_number : String
  email : Option String
  job_id : Nat
  created_at : Nat
  updated_at : Option Nat
  status : String
  score : Option Int
deriving DecidableEq, Repr

/-- Row of the job_questions table, columns as used in app/routers/job_questions.py. -/
structure JobQuestion where
  id : Nat
  job_id : Nat
  question_text : String
  created_at : Nat
  updated_at : Option Nat
deriving DecidableEq, Repr

/-- The relational store: the three tables the routers touch. -/
structure Store where
  jobs : List Job
  candidates : List Candidate
  questions : List JobQuestion
deriving DecidableEq, Repr

/-- Request body for creating a job (class JobCreate in app/models/job.py,
inheriting every field of JobBase). -/
structure JobCreate where
  title : String
  description : Option String
  location : Option String
  location_type : Option LocationType
  seniority_level : Option SeniorityLevel
deriving DecidableEq, Repr

/-- Response model for a job (class JobRead in app/models/job.py): the JobBase
fields plus id, owner, created_at and the derived candidate_count,
average_score and screening_link.  It has no updated_at field. -/
structure JobRead where
  id : Nat
  title : String
  description : Option String
  location : Option String
  location_type : Option LocationType
  seniority_level : Option SeniorityLevel
  created_by_user_id : String
  created_at : Nat
  candidate_count : Nat
  average_score : Option Int
  screening_link : Option String
deriving DecidableEq, Repr

/-- Modelled from the spec: app/models/job.py defines no JobUpdate (it exists
only as commented-out text), yet app/routers/jobs.py imports and uses one as
a partial field set over the mutable Job fields, storing enum values for the
location_type and seniority_level members.  Each field is None when unset
(pydantic model_dump with exclude_unset drops it); for the nullable columns
an extra Option layer distinguishes unset from explicitly null. -/
structure JobUpdate where
  title : Option String
  description : Option (Option String)
  location : Option (Option String)
  location_type : Option (Option LocationType)
  seniority_level : Option (Option SeniorityLevel)
deriving DecidableEq, Repr

/-- Emptiness of the partial update: pydantic model_dump with exclude_unset
returns an empty dict exactly when no field was supplied. -/
def JobUpdate.isEmpty (u : JobUpdate) : Bool :=
  u.title.isNone && u.description.isNone && u.location.isNone &&
  u.location_type.isNone && u.seniority_level.isNone

/-- Request body for creating a candidate (class CandidateCreate in
app/models/candidate.py). -/
structure CandidateCreate where
  full_name : String
  phone_number : String
  email : Option String
deriving DecidableEq, Repr

/-- Response model for a candidate (class CandidateRead in
app/models/candidate.py). -/
structure CandidateRead where
  id : Nat
  full_name : String
  phone_number : String
  email : Option String
  job_id : Nat
  created_at : Nat
  updated_at : Option Nat
  status : String
  score : Option Int
deriving DecidableEq, Repr

/-- Request body for creating a job question (class JobQuestionCreate in
app/models/job_question.py). -/
structure JobQuestionCreate where
  question_text : String
deriving DecidableEq, Repr

/-- Response model for a job question (class JobQuestionRead in
app/models/job_question.py). -/
structure JobQuestionRead where
  id : Nat
  job_id : Nat
  question_text : String
  created_at : Nat
  updated_at : Option Nat
deriving DecidableEq, Repr

/-- Number of candidate rows joined to a job: COUNT of c.id over the LEFT JOIN
of candidates c ON j.id = c.job_id, as in the list and get queries of
app/routers/jobs.py. -/
def candidateCount (db : Store) (jobId : Nat) : Nat :=
  (db.candidates.filter (fun c => c.job_id == jobId)).length

/-- Shape of the rows produced by the SELECT with candidate count in
app/routers/jobs.py (read_jobs and read_job): average_score and
screening_link are absent from the row, so pydantic defaults them to None. -/
def jobReadOf (db : Store) (j : Job) : JobRead :=
  { id := j.id
    title := j.title
    description := j.description
    location := j.location
    location_type := j.location_type
    seniority_level := j.seniority_level
    created_by_user_id := j.created_by_user_id
    created_at := j.created_at
    candidate_count := candidateCount db j.id
    average_score := none
    screening_link := none }

/-- SQL row predicate id = jobId AND created_by_user_id = uid used by every
ownership-filtered job lookup. -/
def ownedBy (jobId : Nat) (uid : String) (j : Job) : Bool :=
  j.id == jobId && j.created_by_user_id == uid

/-- Handler create_job (app/routers/jobs.py): INSERT a row built from the
request body with owner = caller and a freshly generated id, RETURNING the
inserted columns; the response carries candidate_count 0 and no
average_score or screening_link.  A duplicate id would violate the primary
key, which the except branch maps to a 500 database error.  The generated
uuid and the insertion timestamp are passed explicitly as newId and now. -/
def create_job (db : Store) (uid : String) (job_in : JobCreate)
    (newId now : Nat) : Store × Except Nat JobRead :=
  if db.jobs.any (fun j => j.id == newId) then
    (db, .error 500)
  else
    let row : Job :=
      { id := newId
        title := job_in.title
        description := job_in.description
        location := job_in.location
        location_type := job_in.location_type
        seniority_level := job_in.seniority_level
        created_by_user_id := uid
        created_at := now
        updated_at := none }
    ({ db with jobs := db.jobs ++ [row] },
     .ok { id := newId
           title := job_in.title
           description := job_in.description
           location := job_in.location
           location_type := job_in.location_type
           seniority_level := job_in.seniority_level
           created_by_user_id := uid
           created_at := now
           candidate_count := 0
           average_score := none
           screening_link := none })

/-- Comparison used by ORDER BY j.created_at DESC: later creation first. -/
def createdDesc (a b : Job) : Prop :=
  b.created_at ≤ a.created_at

instance : DecidableRel createdDesc :=
  fun a b => Nat.decLe b.created_at a.created_at

instance : IsTotal Job createdDesc :=
  ⟨fun a b => le_total b.created_at a.created_at⟩

instance : IsTrans Job createdDesc :=
  ⟨fun _ _ _ hab hbc => le_trans hbc hab⟩

/-- Handler read_jobs (app/routers/jobs.py): SELECT the jobs of the caller
left-joined with candidates for the count, GROUP BY the job columns,
ORDER BY created_at DESC, LIMIT limit OFFSET skip. -/
def read_jobs (db : Store) (uid : String) (skip limit : Nat) : List JobRead :=
  ((((db.jobs.filter (fun j => j.created_by_user_id == uid)).insertionSort
      createdDesc).map (jobReadOf db)).drop skip).take limit

/-- Pagination defaults of read_jobs and read_candidates_for_job
(skip: int = 0 in the handler signatures). -/
def defaultSkip : Nat := 0

/-- Pagination defaults of read_jobs and read_candidates_for_job
(limit: int = 100 in the handler signatures). -/
def defaultLimit : Nat := 100

/-- Handler read_jobs called without pagination query parameters. -/
def read_jobs_default (db : Store) (uid : String) : List JobRead :=
  read_jobs db uid defaultSkip defaultLimit

/-- Handler read_job (app/routers/jobs.py): SELECT one job by id AND owner
with its candidate count; 404 when no row matches. -/
def read_job (db : Store) (uid : String) (jobId : Nat) : Except Nat JobRead :=
  match db.jobs.find? (ownedBy jobId uid) with
  | none => .error 404
  | some j => .ok (jobReadOf db j)

/-- Effect of the dynamic SET clause of update_job on the matched row: each
supplied field is assigned, unsupplied fields are left alone, and
updated_at = NOW() is always in the clause list. -/
def applyUpdate (u : JobUpdate) (now : Nat) (j : Job) : Job :=
  { j with
    title := u.title.getD j.title
    description := u.description.getD j.description
    location := u.location.getD j.location
    location_type := u.location_type.getD j.location_type
    seniority_level := u.seniority_level.getD j.seniority_level
    updated_at := some now }

/-- Handler update_job (app/routers/jobs.py): 400 when the partial body has
no set field; otherwise UPDATE the row matching id AND owner with the
dynamic SET list (RETURNING id to detect a missed WHERE, mapped to 404),
then re-SELECT the full updated row with its candidate count and commit
after both statements; an empty re-fetch is a 500. -/
def update_job (db : Store) (uid : String) (jobId : Nat) (u : JobUpdate)
    (now : Nat) : Store × Except Nat JobRead :=
  if u.isEmpty then
    (db, .error 400)
  else
    match db.jobs.find? (ownedBy jobId uid) with
    | none => (db, .error 404)
    | some _ =>
      let jobs2 := db.jobs.map
        (fun j => if ownedBy jobId uid j then applyUpdate u now j else j)
      let db2 : Store := { db with jobs := jobs2 }
      match jobs2.find? (ownedBy jobId uid) with
      | none => (db, .error 500)
      | some j2 => (db2, .ok (jobReadOf db2 j2))

/-- Handler create_candidate_for_job (app/routers/candidates.py): INSERT a
candidate row under the given job with no ownership check (the check exists
only as commented-out text); a ForeignKeyViolation, raised exactly when the
referenced job id does not exist, is mapped to 404 and nothing is
committed.  The row takes the database defaults status pending and null
score, which the RETURNING list does not even include (pydantic fills
them). -/
def create_candidate_for_job (db : Store) (uid : String) (jobId : Nat)
    (candidate_data : CandidateCreate) (newId now : Nat) :
    Store × Except Nat CandidateRead :=
  if db.jobs.any (fun j => j.id == jobId) then
    let row : Candidate :=
      { id := newId
        full_name := candidate_data.full_name
        phone_number := candidate_data.phone_number
        email := candidate_data.email
        job_id := jobId
        created_at := now
        updated_at := none
        status := "pending"
        score := none }
    ({ db with candidates := db.candidates ++ [row] },
     .ok { id := newId
           full_name := candidate_data.full_name
           phone_number := candidate_data.phone_number
           email := candidate_data.email
           job_id := jobId
           created_at := now
           updated_at := none
           status := "pending"
           score := none })
  else
    (db, .error 404)

/-- Comparison used by ORDER BY created_at DESC on candidates. -/
def candidateCreatedDesc (a b : Candidate) : Prop :=
  b.created_at ≤ a.created_at

instance : DecidableRel candidateCreatedDesc :=
  fun a b => Nat.decLe b.created_at a.created_at

instance : IsTotal Candidate candidateCreatedDesc :=
  ⟨fun a b => le_total b.created_at a.created_at⟩

instance : IsTrans Candidate candidateCreatedDesc :=
  ⟨fun _ _ _ hab hbc => le_trans hbc hab⟩

/-- View of a candidate row as the response model. -/
def candidateReadOf (c : Candidate) : CandidateRead :=
  { id := c.id
    full_name := c.full_name
    phone_number := c.phone_number
    email := c.email
    job_id := c.job_id
    created_at := c.created_at
    updated_at := c.updated_at
    status := c.status
    score := c.score }

/-- Handler read_candidates_for_job (app/routers/candidates.py): first a
job-ownership check (404 when the job is absent or owned by someone else),
then SELECT the candidates of the job ORDER BY created_at DESC LIMIT limit
OFFSET skip. -/
def read_candidates_for_job (db : Store) (uid : String) (jobId : Nat)
    (skip limit : Nat) : Except Nat (List CandidateRead) :=
  if db.jobs.any (ownedBy jobId uid) then
    .ok (((((db.candidates.filter (fun c => c.job_id == jobId)).insertionSort
      candidateCreatedDesc).map candidateReadOf).drop skip).take limit)
  else
    .error 404

/-- Handler read_candidates_for_job called without pagination query
parameters. -/
def read_candidates_for_job_default (db : Store) (uid : String)
    (jobId : Nat) : Except Nat (List CandidateRead) :=
  read_candidates_for_job db uid jobId defaultSkip defaultLimit

/-- Comparison used by ORDER BY created_at ASC on job questions. -/
def questionCreatedAsc (a b : JobQuestion) : Prop :=
  a.created_at ≤ b.created_at

instance : DecidableRel questionCreatedAsc :=
  fun a b => Nat.decLe a.created_at b.created_at

instance : IsTotal JobQuestion questionCreatedAsc :=
  ⟨fun a b => le_total a.created_at b.created_at⟩

instance : IsTrans JobQuestion questionCreatedAsc :=
  ⟨fun _ _ _ hab hbc => le_trans hab hbc⟩

/-- View of a question row as the response model. -/
def questionReadOf (q : JobQuestion) : JobQuestionRead :=
  { id := q.id
    job_id := q.job_id
    question_text := q.question_text
    created_at := q.created_at
    updated_at := q.updated_at }

/-- Helper verify_job_ownership (app/routers/job_questions.py): SELECT id
FROM jobs WHERE id AND owner; 404 when no row comes back. -/
def verify_job_ownership (db : Store) (jobId : Nat) (uid : String) : Bool :=
  (db.jobs.find? (ownedBy jobId uid)).isSome

/-- Handler read_job_questions (app/routers/job_questions.py): ownership
check, then SELECT the questions of the job ORDER BY created_at ASC. -/
def read_job_questions (db : Store) (uid : String) (jobId : Nat) :
    Except Nat (List JobQuestionRead) :=
  if verify_job_ownership db jobId uid then
    .ok (((db.questions.filter (fun q => q.job_id == jobId)).insertionSort
      questionCreatedAsc).map questionReadOf)
  else
    .error 404

/-- Handler create_job_question (app/routers/job_questions.py): ownership
check, then INSERT (id, job_id, question_text) with database-defaulted
timestamps, RETURNING the row. -/
def create_job_question (db : Store) (uid : String) (jobId : Nat)
    (question_data : JobQuestionCreate) (newId now : Nat) :
    Store × Except Nat JobQuestionRead :=
  if verify_job_ownership db jobId uid then
    let row : JobQuestion :=
      { id := newId
        job_id := jobId
        question_text := question_data.question_text
        created_at := now
        updated_at := none }
    ({ db with questions := db.questions ++ [row] },
     .ok (questionReadOf row))
  else
    (db, .error 404)

/-- Row predicate of the joined DELETE in delete_job_question: the question
matches the given ids and its parent job, joined on job_id, is owned by the
caller. -/
def deletableQuestion (db : Store) (uid : String) (jobId qId : Nat)
    (q : JobQuestion) : Bool :=
  q.id == qId && q.job_id == jobId &&
    db.jobs.any (fun j => j.id == q.job_id && j.created_by_user_id == uid)

/-- Handler delete_job_question (app/routers/job_questions.py): a single
DELETE joining job_questions with jobs on owner id, RETURNING q.id; when no
row is affected the commit never happens and the handler raises 404,
otherwise the route answers 204 with no content. -/
def delete_job_question (db : Store) (uid : String) (jobId qId : Nat) :
    Store × Except Nat Unit :=
  if db.questions.any (deletableQuestion db uid jobId qId) then
    ({ db with
       questions := db.questions.filter
         (fun q => !(deletableQuestion db uid jobId qId q)) },
     .ok ())
  else
    (db, .error 404)

/-- HTTP status of a delete_job_question outcome: the route is declared with
status_code 204 for its empty success body. -/
def deleteStatus (r : Except Nat Unit) : Nat :=
  match r with
  | .ok _ => 204
  | .error c => c

/-- Names the job models module app/models/job.py defines at module level.
A JobUpdate class appears only inside a comment, so it is not among them. -/
def jobModelNames : List String :=
  ["LocationType", "SeniorityLevel", "JobBase", "JobCreate", "JobRead"]

/-- Names the jobs router imports from the job models module
(app/routers/jobs.py line 9). -/
def jobsRouterJobModelImports : List String :=
  ["JobCreate", "JobRead", "JobUpdate", "LocationType", "SeniorityLevel"]

/-- Whether every name the jobs router imports from the job models module is
actually defined there; Python raises ImportError otherwise. -/
def jobsRouterImportsResolve : Bool :=
  jobsRouterJobModelImports.all (fun n => jobModelNames.contains n)

/-- Segment of a route path: a literal piece or a path parameter. -/
inductive Seg
  | lit : String → Seg
  | param : String → Seg
deriving DecidableEq, Repr

/-- A registered HTTP route: method plus path segments. -/
structure Route where
  method : String
  path : List Seg
deriving DecidableEq, Repr

/-- Routes of the auth router (app/routers/auth.py). -/
def authRouterRoutes : List Route :=
  [⟨"GET", [.lit "api", .lit "v1", .lit "auth", .lit "me"]⟩]

/-- Routes of the jobs router (app/routers/jobs.py). -/
def jobsRouterRoutes : List Route :=
  [⟨"POST", [.lit "api", .lit "v1", .lit "jobs"]⟩,
   ⟨"GET", [.lit "api", .lit "v1", .lit "jobs"]⟩,
   ⟨"GET", [.lit "api", .lit "v1", .lit "jobs", .param "job_id"]⟩,
   ⟨"PUT", [.lit "api", .lit "v1", .lit "jobs", .param "job_id"]⟩]

/-- Routes of the candidates router (app/routers/candidates.py). -/
def candidatesRouterRoutes : List Route :=
  [⟨"POST", [.lit "api", .lit "v1", .lit "jobs", .param "job_id",
             .lit "candidates"]⟩,
   ⟨"GET", [.lit "api", .lit "v1", .lit "jobs", .param "job_id",
            .lit "candidates"]⟩]

/-- Routes of the job questions router (app/routers/job_questions.py), with
its nested prefix. -/
def jobQuestionsRouterRoutes : List Route :=
  [⟨"GET", [.lit "api", .lit "v1", .lit "jobs", .param "job_id",
            .lit "questions"]⟩,
   ⟨"POST", [.lit "api", .lit "v1", .lit "jobs", .param "job_id",
             .lit "questions"]⟩,
   ⟨"DELETE", [.lit "api", .lit "v1", .lit "jobs", .param "job_id",
               .lit "questions", .param "question_id"]⟩]

/-- Liveness route declared directly on the app (src/main.py). -/
def healthRoute : Route :=
  ⟨"GET", [.lit "api", .lit "v1", .lit "health"]⟩

/-- Routes the application registers: src/main.py calls include_router on
the auth, jobs and candidates routers only, and adds the health route; the
job questions router is never included. -/
def appRoutes : List Route :=
  authRouterRoutes ++ jobsRouterRoutes ++ candidatesRouterRoutes ++
    [healthRoute]

/-- Modelled from the spec: the route table of section 6, restated as
method and path segments. -/
def specRouteTable : List Route :=
  [⟨"POST", [.lit "api", .lit "v1", .lit "jobs"]⟩,
   ⟨"GET", [.lit "api", .lit "v1", .lit "jobs"]⟩,
   ⟨"GET", [.lit "api", .lit "v1", .lit "jobs", .param "job_id"]⟩,
   ⟨"PUT", [.lit "api", .lit "v1", .lit "jobs", .param "job_id"]⟩,
   ⟨"POST", [.lit "api", .lit "v1", .lit "jobs", .param "job_id",
             .lit "candidates"]⟩,
   ⟨"GET", [.lit "api", .lit "v1", .lit "jobs", .param "job_id",
            .lit "candidates"]⟩,
   ⟨"GET", [.lit "api", .lit "v1", .lit "jobs", .param "job_id",
            .lit "questions"]⟩,
   ⟨"POST", [.lit "api", .lit "v1", .lit "jobs", .param "job_id",
             .lit "questions"]⟩,
   ⟨"DELETE", [.lit "api", .lit "v1", .lit "jobs", .param "job_id",
               .lit "questions", .param "question_id"]⟩,
   ⟨"GET", [.lit "api", .lit "v1", .lit "health"]⟩]

/-- Sample job row owned by the user alice, for concrete instances. -/
def jobAlice : Job :=
  { id := 1
    title := "Engineer"
    description := none
    location := none
    location_type := none
    seniority_level := none
    created_by_user_id := "alice"
    created_at := 10
    updated_at := none }

/-- Second sample job row of alice, created later. -/
def jobAlice2 : Job :=
  { jobAlice with id := 2, created_at := 20 }

/-- Sample job row owned by the user bob. -/
def jobBob : Job :=
  { jobAlice with id := 3, created_by_user_id := "bob", created_at := 30 }

/-- Sample candidate row under the job of alice. -/
def candidateOne : Candidate :=
  { id := 4
    full_name := "Ann"
    phone_number := "12345"
    email := none
    job_id := 1
    created_at := 5
    updated_at := none
    status := "pending"
    score := none }

/-- Sample question row under the job of alice. -/
def questionOne : JobQuestion :=
  { id := 7
    job_id := 1
    question_text := "Why this role"
    created_at := 3
    updated_at := none }

/-- Sample candidate request body. -/
def candBody : CandidateCreate :=
  { full_name := "Ann", phone_number := "12345", email := none }

/-- Sample partial update setting only the title. -/
def titleOnly : JobUpdate :=
  { title := some "Staff Engineer"
    description := none
    location := none
    location_type := none
    seniority_level := none }

/-- Sample job request body. -/
def jobBody : JobCreate :=
  { title := "Designer"
    description := none
    location := none
    location_type := none
    seniority_level := none }

/-- Update payload with no field set. -/
def emptyUpdate : JobUpdate :=
  { title := none
    description := none
    location := none
    location_type := none
    seniority_level := none }

/-- Sample store with two jobs of alice, one job of bob and one candidate
under the first job of alice. -/
def storeThree : Store :=
  ⟨[jobAlice, jobAlice2, jobBob], [candidateOne], []⟩

/-- Claim C1: the jobs router imports the name JobUpdate from the job models
module, but the models module defines no JobUpdate (it exists only as
commented-out text), so resolving the imports of the jobs router fails. -/
theorem C1_jobs_router_import_fails :
    "JobUpdate" ∈ jobsRouterJobModelImports ∧
    "JobUpdate" ∉ jobModelNames ∧
    jobsRouterImportsResolve = false := by
  decide

/-- Claim C2, evaluated on the code: the three question routes are listed in
the route table of the spec and defined by the job questions router, yet
none of them is registered by the application, because src/main.py never
includes that router; hence not every route of the table is registered. -/
theorem C2_question_routes_unregistered :
    jobQuestionsRouterRoutes.all (fun r => specRouteTable.contains r) = true ∧
    jobQuestionsRouterRoutes.all (fun r => appRoutes.contains r) = false ∧
    specRouteTable.all (fun r => appRoutes.contains r) = false := by
  decide

/-- Claim C5: for every job id and every update request whose field set is
empty, update_job answers 400 bad request and returns the store unchanged:
no row, no field and no timestamp is modified. -/
theorem C5_empty_update_unchanged (db : Store) (uid : String) (jobId : Nat)
    (u : JobUpdate) (now : Nat) (h : u.isEmpty = true) :
    update_job db uid jobId u now = (db, .error 400) := by
  simp [update_job, h]

/-- Witness for C5 at a concrete store and the all-unset payload. -/
theorem C5_empty_update_unchanged_witness :
    update_job ⟨[jobAlice], [], []⟩ "alice" 1 emptyUpdate 99 =
      (⟨[jobAlice], [], []⟩, .error 400) :=
  C5_empty_update_unchanged ⟨[jobAlice], [], []⟩ "alice" 1 emptyUpdate 99
    (by decide)

/-- Claim C6: creating a candidate under a job id that references no
existing job raises a foreign-key violation mapped to 404 not found, and
the store gains no candidate row (nothing is committed). -/
theorem C6_create_candidate_missing_job (db : Store) (uid : String)
    (jobId : Nat) (cd : CandidateCreate) (newId now : Nat)
    (h : ∀ j ∈ db.jobs, j.id ≠ jobId) :
    create_candidate_for_job db uid jobId cd newId now = (db, .error 404) := by
  have hany : db.jobs.any (fun j => j.id == jobId) = false := by
    simp only [List.any_eq_false, beq_iff_eq]
    exact h
  simp [create_candidate_for_job, hany]

/-- Witness for C6: a store whose only job has id 1 and a create under job
id 5. -/
theorem C6_create_candidate_missing_job_witness :
    create_candidate_for_job ⟨[jobAlice], [], []⟩ "alice" 5 candBody 9 50 =
      (⟨[jobAlice], [], []⟩, .error 404) :=
  C6_create_candidate_missing_job ⟨[jobAlice], [], []⟩ "alice" 5 candBody 9 50
    (by decide)

/-- Claim C10: called without pagination parameters, the list handlers use
skip 0 and limit 100, and so return at most 100 rows whatever the store
holds. -/
theorem C10_default_pagination (db : Store) (uid : String) (jobId : Nat) :
    defaultSkip = 0 ∧ defaultLimit = 100 ∧
    (read_jobs_default db uid).length ≤ 100 ∧
    (∀ l, read_candidates_for_job_default db uid jobId = .ok l →
      l.length ≤ 100) := by
  refine ⟨rfl, rfl, ?_, ?_⟩
  · simp only [read_jobs_default, read_jobs, defaultLimit]
    exact List.length_take_le _ _
  · intro l hl
    simp only [read_candidates_for_job_default, read_candidates_for_job,
      defaultLimit] at hl
    split at hl
    · cases hl
      exact List.length_take_le _ _
    · cases hl

/-- Witness for C10 at a one-job one-candidate store. -/
theorem C10_default_pagination_witness :
    defaultSkip = 0 ∧ defaultLimit = 100 ∧
    (read_jobs_default ⟨[jobAlice], [candidateOne], []⟩ "alice").length ≤ 100 ∧
    ([candidateReadOf candidateOne]).length ≤ 100 := by
  obtain ⟨h1, h2, h3, h4⟩ :=
    C10_default_pagination ⟨[jobAlice], [candidateOne], []⟩ "alice" 1
  exact ⟨h1, h2, h3, h4 [candidateReadOf candidateOne] rfl⟩

/-- Claim C9: with a generated identifier that is not already a job id (the
freshly drawn uuid), create_job succeeds and the returned resource carries
that new id, an id no prior job row had, the caller as owner, and a
candidate_count of 0. -/
theorem C9_create_job_fresh (db : Store) (uid : String) (job_in : JobCreate)
    (newId now : Nat) (h : ∀ j ∈ db.jobs, j.id ≠ newId) :
    ∃ db2 r, create_job db uid job_in newId now = (db2, .ok r) ∧
      r.id = newId ∧ (∀ j ∈ db.jobs, j.id ≠ r.id) ∧
      r.created_by_user_id = uid ∧ r.candidate_count = 0 := by
  have hany : db.jobs.any (fun j => j.id == newId) = false := by
    simp only [List.any_eq_false, beq_iff_eq]
    exact h
  simp only [create_job, hany, Bool.false_eq_true, if_false]
  exact ⟨_, _, rfl, rfl, h, rfl, rfl⟩

/-- Witness for C9: creating a job in a store whose only job has id 1, with
generated id 9. -/
theorem C9_create_job_fresh_witness :
    ∃ db2 r, create_job ⟨[jobAlice], [], []⟩ "bob" jobBody 9 50 =
        (db2, .ok r) ∧
      r.id = 9 ∧ (∀ j ∈ Store.jobs ⟨[jobAlice], [], []⟩, j.id ≠ r.id) ∧
      r.created_by_user_id = "bob" ∧ r.candidate_count = 0 :=
  C9_create_job_fresh ⟨[jobAlice], [], []⟩ "bob" jobBody 9 50 (by decide)

/-- Claim C7: for a question row that exists under a job owned by the
caller, the first delete answers 204 no content and removes the row, and an
immediately repeated delete of the same question id answers 404. -/
theorem C7_delete_question_twice (db : Store) (uid : String)
    (jobId qId : Nat) (q : JobQuestion) (j : Job)
    (hq : q ∈ db.questions) (hqid : q.id = qId) (hqjob : q.job_id = jobId)
    (hj : j ∈ db.jobs) (hjid : j.id = jobId)
    (hjown : j.created_by_user_id = uid) :
    deleteStatus (delete_job_question db uid jobId qId).2 = 204 ∧
    q ∉ (delete_job_question db uid jobId qId).1.questions ∧
    deleteStatus
      (delete_job_question (delete_job_question db uid jobId qId).1
        uid jobId qId).2 = 404 := by
  have hpq : deletableQuestion db uid jobId qId q = true := by
    simp only [deletableQuestion, hqid, hqjob, beq_self_eq_true,
      Bool.true_and, List.any_eq_true]
    exact ⟨j, hj, by simp [hjid, hqjob, hjown]⟩
  have hany : db.questions.any (deletableQuestion db uid jobId qId) = true :=
    List.any_eq_true.mpr ⟨q, hq, hpq⟩
  have hfirst : delete_job_question db uid jobId qId =
      ({ db with
           questions :=
             db.questions.filter
               (fun x => !(deletableQuestion db uid jobId qId x)) },
       Except.ok ()) := by
    simp [delete_job_question, hany]
  refine ⟨by rw [hfirst]; rfl, ?_, ?_⟩
  · rw [hfirst]
    intro hmem
    have hk := (List.mem_filter.mp hmem).2
    rw [hpq] at hk
    simp at hk
  · rw [hfirst]
    have hsame : ∀ x,
        deletableQuestion
          { db with
              questions :=
                db.questions.filter
                  (fun y => !(deletableQuestion db uid jobId qId y)) }
          uid jobId qId x = deletableQuestion db uid jobId qId x := by
      intro x
      rfl
    have hanyno : (db.questions.filter
        (fun y => !(deletableQuestion db uid jobId qId y))).any
          (deletableQuestion db uid jobId qId) = false := by
      simp only [List.any_eq_false]
      intro x hx
      have hkeep := (List.mem_filter.mp hx).2
      simp only [Bool.not_eq_true'] at hkeep
      simp [hkeep]
    simp [delete_job_question, hsame, hanyno, deleteStatus]

/-- Witness for C7 at a store holding one owned job and one question. -/
theorem C7_delete_question_twice_witness :
    deleteStatus
      (delete_job_question ⟨[jobAlice], [], [questionOne]⟩ "alice" 1 7).2 =
        204 ∧
    questionOne ∉
      (delete_job_question ⟨[jobAlice], [], [questionOne]⟩
        "alice" 1 7).1.questions ∧
    deleteStatus
      (delete_job_question
        (delete_job_question ⟨[jobAlice], [], [questionOne]⟩
          "alice" 1 7).1 "alice" 1 7).2 = 404 :=
  C7_delete_question_twice ⟨[jobAlice], [], [questionOne]⟩ "alice" 1 7
    questionOne jobAlice (by decide) (by decide) (by decide) (by decide)
    (by decide) (by decide)

/-- Claim C3 fails on the code at this input: create_candidate_for_job
performs no ownership check (it exists only as commented-out text), so the
caller bob creating a candidate under the job of alice succeeds with the
created resource, where the claim demands a 404 and never success. -/
theorem C3_cross_user_counterexample :
    jobAlice.created_by_user_id = "alice" ∧
    (create_candidate_for_job ⟨[jobAlice], [], []⟩ "bob" 1 candBody 9 50).2 =
      Except.ok
        { id := 9
          full_name := "Ann"
          phone_number := "12345"
          email := none
          job_id := 1
          created_at := 50
          updated_at := none
          status := "pending"
          score := none } :=
  ⟨rfl, rfl⟩

/-- Claim C3 as amended: on a store whose job with the given id is owned by
another user, the job fetch, the non-empty job update, the candidate
listing, the question listing, the question creation and the question
deletion all answer 404 and leave the store unchanged; but creating a
candidate under that foreign job succeeds, because the handler never checks
ownership. -/
theorem C3_cross_user_amended (db : Store) (caller owner : String)
    (jobId : Nat) (j : Job)
    (hj : j ∈ db.jobs) (hjid : j.id = jobId)
    (hown : j.created_by_user_id = owner) (hne : owner ≠ caller)
    (huniq : ∀ a ∈ db.jobs, a.id = jobId → a = j) :
    read_job db caller jobId = .error 404 ∧
    (∀ u now, u.isEmpty = false →
      update_job db caller jobId u now = (db, .error 404)) ∧
    (∀ skip limit,
      read_candidates_for_job db caller jobId skip limit = .error 404) ∧
    read_job_questions db caller jobId = .error 404 ∧
    (∀ qd newId now,
      create_job_question db caller jobId qd newId now =
        (db, .error 404)) ∧
    (∀ qId, delete_job_question db caller jobId qId = (db, .error 404)) ∧
    (∀ cd newId now, ∃ r,
      (create_candidate_for_job db caller jobId cd newId now).2 =
        .ok r) := by
  have hpred : ∀ a ∈ db.jobs, ownedBy jobId caller a = false := by
    intro a ha
    by_cases hid : a.id = jobId
    · have haj : a = j := huniq a ha hid
      subst haj
      have hc : (a.created_by_user_id == caller) = false := by
        rw [hown]
        exact beq_eq_false_iff_ne.mpr hne
      simp [ownedBy, hc]
    · have hc : (a.id == jobId) = false := beq_eq_false_iff_ne.mpr hid
      simp [ownedBy, hc]
  have hfind : db.jobs.find? (ownedBy jobId caller) = none :=
    List.find?_eq_none.mpr (fun a ha => by simp [hpred a ha])
  have hany : db.jobs.any (ownedBy jobId caller) = false :=
    List.any_eq_false.mpr (fun a ha => by simp [hpred a ha])
  have hverify : verify_job_ownership db jobId caller = false := by
    simp [verify_job_ownership, hfind]
  have hanyid : db.jobs.any (fun a => a.id == jobId) = true :=
    List.any_eq_true.mpr ⟨j, hj, by simp [hjid]⟩
  have hjobany : db.jobs.any
      (fun a => a.id == jobId && a.created_by_user_id == caller) = false :=
    List.any_eq_false.mpr
      (fun a ha => by
        have hp := hpred a ha
        simp only [ownedBy] at hp
        simp [hp])
  have hanyq : ∀ qId, db.questions.any
      (deletableQuestion db caller jobId qId) = false := by
    intro qId
    refine List.any_eq_false.mpr (fun x hx => ?_)
    by_cases hxj : x.job_id = jobId
    · simp [deletableQuestion, hxj, hjobany]
    · have hc : (x.job_id == jobId) = false := beq_eq_false_iff_ne.mpr hxj
      simp [deletableQuestion, hc]
  refine ⟨?_, ?_, ?_, ?_, ?_, ?_, ?_⟩
  · simp [read_job, hfind]
  · intro u now hu
    simp [update_job, hu, hfind]
  · intro skip limit
    simp [read_candidates_for_job, hany]
  · simp [read_job_questions, hverify]
  · intro qd newId now
    simp [create_job_question, hverify]
  · intro qId
    simp [delete_job_question, hanyq qId]
  · intro cd newId now
    refine ⟨{ id := newId
              full_name := cd.full_name
              phone_number := cd.phone_number
              email := cd.email
              job_id := jobId
              created_at := now
              updated_at := none
              status := "pending"
              score := none }, ?_⟩
    simp [create_candidate_for_job, hanyid]

/-- Witness for the amended C3: bob against the store of alice holding one
job and one question. -/
theorem C3_cross_user_amended_witness :
    read_job ⟨[jobAlice], [], [questionOne]⟩ "bob" 1 = .error 404 ∧
    update_job ⟨[jobAlice], [], [questionOne]⟩ "bob" 1 titleOnly 99 =
      (⟨[jobAlice], [], [questionOne]⟩, .error 404) ∧
    read_candidates_for_job ⟨[jobAlice], [], [questionOne]⟩ "bob" 1 0 100 =
      .error 404 ∧
    read_job_questions ⟨[jobAlice], [], [questionOne]⟩ "bob" 1 =
      .error 404 ∧
    create_job_question ⟨[jobAlice], [], [questionOne]⟩ "bob" 1
      ⟨"Tell us more"⟩ 8 60 = (⟨[jobAlice], [], [questionOne]⟩, .error 404) ∧
    delete_job_question ⟨[jobAlice], [], [questionOne]⟩ "bob" 1 7 =
      (⟨[jobAlice], [], [questionOne]⟩, .error 404) ∧
    ∃ r, (create_candidate_for_job ⟨[jobAlice], [], [questionOne]⟩ "bob" 1
      candBody 9 50).2 = .ok r := by
  obtain ⟨h1, h2, h3, h4, h5, h6, h7⟩ :=
    C3_cross_user_amended ⟨[jobAlice], [], [questionOne]⟩ "bob" "alice" 1
      jobAlice (by decide) (by decide) (by decide) (by decide) (by decide)
  exact ⟨h1, h2 titleOnly 99 (by decide), h3 0 100, h4,
    h5 ⟨"Tell us more"⟩ 8 60, h6 7, h7 candBody 9 50⟩

/-- Helper: the SET clause never assigns the id or owner columns, so the
WHERE predicate of the re-fetch agrees on an updated row. -/
theorem ownedBy_applyUpdate (jobId : Nat) (uid : String) (u : JobUpdate)
    (now : Nat) (x : Job) :
    ownedBy jobId uid (applyUpdate u now x) = ownedBy jobId uid x :=
  rfl

/-- Claim C4: updating an owned job with a non-empty partial payload
succeeds, touches no candidate or question row and no other job row, and
rewrites the matched row to exactly the supplied fields plus a refreshed
updated_at, every unsupplied field keeping its prior value. -/
theorem C4_partial_update_frame (db : Store) (uid : String) (jobId : Nat)
    (u : JobUpdate) (now : Nat) (j : Job)
    (hj : j ∈ db.jobs) (hjid : j.id = jobId)
    (hown : j.created_by_user_id = uid)
    (huniq : ∀ a ∈ db.jobs, a.id = jobId → a = j)
    (hu : u.isEmpty = false) :
    ∃ db2, update_job db uid jobId u now =
        (db2, .ok (jobReadOf db2 (applyUpdate u now j))) ∧
      db2.candidates = db.candidates ∧
      db2.questions = db.questions ∧
      applyUpdate u now j ∈ db2.jobs ∧
      (∀ x ∈ db2.jobs, x = applyUpdate u now j ∨ x ∈ db.jobs) ∧
      (∀ x ∈ db.jobs, x ≠ j → x ∈ db2.jobs) ∧
      (applyUpdate u now j).updated_at = some now ∧
      (applyUpdate u now j).id = j.id ∧
      (applyUpdate u now j).created_by_user_id = j.created_by_user_id ∧
      (applyUpdate u now j).created_at = j.created_at ∧
      (u.title = none → (applyUpdate u now j).title = j.title) ∧
      (∀ t, u.title = some t → (applyUpdate u now j).title = t) ∧
      (u.description = none →
        (applyUpdate u now j).description = j.description) ∧
      (∀ d, u.description = some d →
        (applyUpdate u now j).description = d) ∧
      (u.location = none → (applyUpdate u now j).location = j.location) ∧
      (∀ s, u.location = some s → (applyUpdate u now j).location = s) ∧
      (u.location_type = none →
        (applyUpdate u now j).location_type = j.location_type) ∧
      (∀ t, u.location_type = some t →
        (applyUpdate u now j).location_type = t) ∧
      (u.seniority_level = none →
        (applyUpdate u now j).seniority_level = j.seniority_level) ∧
      (∀ s, u.seniority_level = some s →
        (applyUpdate u now j).seniority_level = s) := by
  have hpj : ownedBy jobId uid j = true := by
    simp [ownedBy, hjid, hown]
  have hsome : (db.jobs.find? (ownedBy jobId uid)).isSome :=
    List.find?_isSome.mpr ⟨j, hj, hpj⟩
  obtain ⟨j0, hj0⟩ := Option.isSome_iff_exists.mp hsome
  have hj0mem := List.mem_of_find?_eq_some hj0
  have hj0pred := List.find?_some hj0
  have hj0id : j0.id = jobId := by
    simp only [ownedBy, Bool.and_eq_true, beq_iff_eq] at hj0pred
    exact hj0pred.1
  have hj0j : j0 = j := huniq j0 hj0mem hj0id
  subst hj0j
  have hfind2 : ((db.jobs.map
      (fun x => if ownedBy jobId uid x then applyUpdate u now x else x)).find?
        (ownedBy jobId uid)) = some (applyUpdate u now j0) := by
    rw [List.find?_map]
    have hcomp : ((ownedBy jobId uid) ∘
        (fun x => if ownedBy jobId uid x then applyUpdate u now x else x)) =
          ownedBy jobId uid := by
      funext x
      by_cases hx : ownedBy jobId uid x = true
      · simp [Function.comp, hx, ownedBy_applyUpdate]
      · simp [Function.comp, hx]
    rw [hcomp, hj0]
    simp [hpj]
  have hres : update_job db uid jobId u now =
      ({ db with
           jobs := db.jobs.map
             (fun x => if ownedBy jobId uid x then applyUpdate u now x
                       else x) },
       Except.ok
         (jobReadOf
           { db with
               jobs := db.jobs.map
                 (fun x => if ownedBy jobId uid x then applyUpdate u now x
                           else x) }
           (applyUpdate u now j0))) := by
    simp only [update_job, hu, Bool.false_eq_true, if_false, hj0, hfind2]
  refine ⟨_, hres, rfl, rfl, ?_, ?_, ?_, rfl, rfl, rfl, rfl,
    ?_, ?_, ?_, ?_, ?_, ?_, ?_, ?_, ?_, ?_⟩
  · exact List.mem_map.mpr ⟨j0, hj, by simp [hpj]⟩
  · intro x hx
    obtain ⟨y, hy, hyx⟩ := List.mem_map.mp hx
    by_cases hpy : ownedBy jobId uid y = true
    · left
      have hyid : y.id = jobId := by
        simp only [ownedBy, Bool.and_eq_true, beq_iff_eq] at hpy
        exact hpy.1
      have : y = j0 := huniq y hy hyid
      subst this
      rw [← hyx]
      simp [hpy]
    · right
      rw [← hyx]
      simp only [hpy, if_false]
      simpa using hy
  · intro x hx hxne
    have hpx : ownedBy jobId uid x = false := by
      by_contra hc
      have hpx' : ownedBy jobId uid x = true := by
        cases h : ownedBy jobId uid x
        · exact absurd h hc
        · rfl
      have hxid : x.id = jobId := by
        simp only [ownedBy, Bool.and_eq_true, beq_iff_eq] at hpx'
        exact hpx'.1
      exact hxne (huniq x hx hxid)
    exact List.mem_map.mpr ⟨x, hx, by simp [hpx]⟩
  · intro h
    simp [applyUpdate, h]
  · intro t ht
    simp [applyUpdate, ht]
  · intro h
    simp [applyUpdate, h]
  · intro d hd
    simp [applyUpdate, hd]
  · intro h
    simp [applyUpdate, h]
  · intro s hs
    simp [applyUpdate, hs]
  · intro h
    simp [applyUpdate, h]
  · intro t ht
    simp [applyUpdate, ht]
  · intro h
    simp [applyUpdate, h]
  · intro s hs
    simp [applyUpdate, hs]

/-- Witness for C4: alice updates only the title of her job. -/
theorem C4_partial_update_frame_witness :
    ∃ db2, update_job ⟨[jobAlice], [], []⟩ "alice" 1 titleOnly 99 =
        (db2, .ok (jobReadOf db2 (applyUpdate titleOnly 99 jobAlice))) ∧
      db2.candidates = Store.candidates ⟨[jobAlice], [], []⟩ ∧
      db2.questions = Store.questions ⟨[jobAlice], [], []⟩ ∧
      applyUpdate titleOnly 99 jobAlice ∈ db2.jobs ∧
      (∀ x ∈ db2.jobs, x = applyUpdate titleOnly 99 jobAlice ∨
        x ∈ Store.jobs ⟨[jobAlice], [], []⟩) ∧
      (∀ x ∈ Store.jobs ⟨[jobAlice], [], []⟩, x ≠ jobAlice →
        x ∈ db2.jobs) ∧
      (applyUpdate titleOnly 99 jobAlice).updated_at = some 99 ∧
      (applyUpdate titleOnly 99 jobAlice).id = jobAlice.id ∧
      (applyUpdate titleOnly 99 jobAlice).created_by_user_id =
        jobAlice.created_by_user_id ∧
      (applyUpdate titleOnly 99 jobAlice).created_at = jobAlice.created_at ∧
      (titleOnly.title = none →
        (applyUpdate titleOnly 99 jobAlice).title = jobAlice.title) ∧
      (∀ t, titleOnly.title = some t →
        (applyUpdate titleOnly 99 jobAlice).title = t) ∧
      (titleOnly.description = none →
        (applyUpdate titleOnly 99 jobAlice).description =
          jobAlice.description) ∧
      (∀ d, titleOnly.description = some d →
        (applyUpdate titleOnly 99 jobAlice).description = d) ∧
      (titleOnly.location = none →
        (applyUpdate titleOnly 99 jobAlice).location = jobAlice.location) ∧
      (∀ s, titleOnly.location = some s →
        (applyUpdate titleOnly 99 jobAlice).location = s) ∧
      (titleOnly.location_type = none →
        (applyUpdate titleOnly 99 jobAlice).location_type =
          jobAlice.location_type) ∧
      (∀ t, titleOnly.location_type = some t →
        (applyUpdate titleOnly 99 jobAlice).location_type = t) ∧
      (titleOnly.seniority_level = none →
        (applyUpdate titleOnly 99 jobAlice).seniority_level =
          jobAlice.seniority_level) ∧
      (∀ s, titleOnly.seniority_level = some s →
        (applyUpdate titleOnly 99 jobAlice).seniority_level = s) :=
  C4_partial_update_frame ⟨[jobAlice], [], []⟩ "alice" 1 titleOnly 99
    jobAlice (by decide) (by decide) (by decide) (by decide) (by decide)

/-- Claim C8: the job listing returns only rows derived from jobs of the
caller, never a job of another user, each carrying the candidate count of
its job id, pairwise ordered by creation time descending, and equal to the
window drop skip then take limit of the full ordered list. -/
theorem C8_list_jobs (db : Store) (uid : String) (skip limit : Nat) :
    (∀ r ∈ read_jobs db uid skip limit,
      ∃ j ∈ db.jobs, j.created_by_user_id = uid ∧ r = jobReadOf db j) ∧
    (∀ r ∈ read_jobs db uid skip limit, r.created_by_user_id = uid) ∧
    (∀ r ∈ read_jobs db uid skip limit,
      r.candidate_count = candidateCount db r.id) ∧
    (read_jobs db uid skip limit).Pairwise
      (fun a b => b.created_at ≤ a.created_at) ∧
    (read_jobs db uid skip limit).length ≤ limit ∧
    read_jobs db uid skip limit =
      ((((db.jobs.filter
          (fun j => j.created_by_user_id == uid)).insertionSort
            createdDesc).map (jobReadOf db)).drop skip).take limit := by
  have hmem : ∀ r ∈ read_jobs db uid skip limit,
      ∃ j ∈ db.jobs, j.created_by_user_id = uid ∧ r = jobReadOf db j := by
    intro r hr
    have hr2 : r ∈ ((db.jobs.filter
        (fun j => j.created_by_user_id == uid)).insertionSort
          createdDesc).map (jobReadOf db) :=
      List.drop_subset _ _ (List.take_subset _ _ hr)
    obtain ⟨j, hjs, hjr⟩ := List.mem_map.mp hr2
    have hjf : j ∈ db.jobs.filter (fun j => j.created_by_user_id == uid) :=
      (List.mem_insertionSort createdDesc).mp hjs
    obtain ⟨hjdb, hjp⟩ := List.mem_filter.mp hjf
    exact ⟨j, hjdb, by simpa using hjp, hjr.symm⟩
  refine ⟨hmem, ?_, ?_, ?_, List.length_take_le _ _, rfl⟩
  · intro r hr
    obtain ⟨j, _, hju, hrj⟩ := hmem r hr
    rw [hrj]
    exact hju
  · intro r hr
    obtain ⟨j, _, _, hrj⟩ := hmem r hr
    rw [hrj]
    rfl
  · have hs : ((db.jobs.filter
        (fun j => j.created_by_user_id == uid)).insertionSort
          createdDesc).Pairwise createdDesc :=
      List.sorted_insertionSort createdDesc _
    have hmap : (((db.jobs.filter
        (fun j => j.created_by_user_id == uid)).insertionSort
          createdDesc).map (jobReadOf db)).Pairwise
        (fun a b => b.created_at ≤ a.created_at) :=
      List.pairwise_map.mpr hs
    exact List.Pairwise.sublist
      ((List.take_sublist _ _).trans (List.drop_sublist _ _)) hmap

/-- Witness for C8 at the three-job store: the listing of alice. -/
theorem C8_list_jobs_witness :
    (jobReadOf storeThree jobAlice2).created_by_user_id = "alice" ∧
    (jobReadOf storeThree jobAlice2).candidate_count =
      candidateCount storeThree (jobReadOf storeThree jobAlice2).id ∧
    (read_jobs storeThree "alice" 0 100).Pairwise
      (fun a b => b.created_at ≤ a.created_at) ∧
    (read_jobs storeThree "alice" 0 100).length ≤ 100 := by
  obtain ⟨h1, h2, h3, h4, h5, h6⟩ := C8_list_jobs storeThree "alice" 0 100
  exact ⟨h2 _ (by decide), h3 _ (by decide), h4, h5⟩

end Screenly
